import Mathlib

/-!
Shallow embedding of `src/script.js`, the client-side page-interaction layer
(header show/hide, mobile navigation drawer, theming, scroll progress,
reveal animations, news fetch).  Each definition is translated from the
corresponding JavaScript function; DOM elements that the script looks up and
that may be absent are modelled as `Option`-valued fields, and JavaScript
exceptions (`TypeError` on a null dereference, a thrown storage error,
a `ReferenceError`) are modelled with `Except`, the error carrying the state
at the moment of the throw.
-/

namespace SulavSite

/-- Generic test for the `ok` branch of an `Except`, used to state whether a
modelled routine completed without throwing. -/
def exOk {ε α : Type} (e : Except ε α) : Bool :=
  match e with
  | .ok _ => true
  | .error _ => false

/-! ## Header / navigation state (script.js lines 8-98)

The script holds `header`, `navToggle`, `mobileNavPanel` element references
(each possibly `null`), the booleans mirrored onto them as classes and ARIA
attributes, plus the module-scoped `isNavOpen` and `lastScrollY` variables. -/

/-- The `#main-header` element: its `scrolled` and `hidden` classes and its
`offsetHeight` (read by `handleHeaderScroll`). -/
structure HeaderEl where
  scrolled : Bool
  hidden : Bool
  offsetHeight : Int
deriving DecidableEq

/-- The `.nav-toggle` trigger element: `active` class and `aria-expanded`. -/
structure NavToggleEl where
  active : Bool
  ariaExpanded : Bool
deriving DecidableEq

/-- The `#mobile-nav-panel` element: `active` class and `aria-hidden`. -/
structure NavPanelEl where
  active : Bool
  ariaHidden : Bool
deriving DecidableEq

/-- The page state touched by the scroll coordinator and drawer controller:
the three optional elements, the body `no-scroll` class, and the
module-scoped `isNavOpen` / `lastScrollY` variables. -/
structure PageState where
  header : Option HeaderEl
  navToggle : Option NavToggleEl
  mobileNavPanel : Option NavPanelEl
  bodyNoScroll : Bool
  isNavOpen : Bool
  lastScrollY : Int
deriving DecidableEq

/-- `handleHeaderScroll` (script.js lines 45-66): reads the current scroll
offset, returns unchanged (early `return`) when the header is absent,
otherwise sets `scrolled := y > 50`, sets `hidden` exactly when
`y > lastScrollY && y > header.offsetHeight && !isNavOpen`, and finally
updates `lastScrollY := y`.  Note the early return also skips the
`lastScrollY` update, as in the source. -/
def handleHeaderScroll (s : PageState) (currentScrollY : Int) : PageState :=
  match s.header with
  | none => s
  | some h =>
    let h1 : HeaderEl := { h with scrolled := decide (currentScrollY > 50) }
    let hid : Bool :=
      decide (currentScrollY > s.lastScrollY) &&
      decide (currentScrollY > h1.offsetHeight) && !s.isNavOpen
    { s with header := some { h1 with hidden := hid }, lastScrollY := currentScrollY }

/-- The header's `hidden` class, `false` when the header element is absent. -/
def hiddenFlag (s : PageState) : Bool :=
  match s.header with
  | none => false
  | some h => h.hidden

/-- `toggleMobileNav` (script.js lines 71-89): flips `isNavOpen`, then
dereferences `navToggle` with no null guard (a `TypeError` when it is
absent — modelled as `.error`, the flag already flipped), mirrors the new
flag onto the trigger, the panel (this one IS null-guarded in the source),
and the body `no-scroll` class, and, only when the new state is open,
removes the header's `hidden` class — again with no null guard on
`header` (a `TypeError` when absent). -/
def toggleMobileNav (s : PageState) : Except PageState PageState :=
  let navOpen := !s.isNavOpen
  match s.navToggle with
  | none => .error { s with isNavOpen := navOpen }
  | some _ =>
    let s1 : PageState :=
      { s with
        isNavOpen := navOpen
        navToggle := some { active := navOpen, ariaExpanded := navOpen }
        mobileNavPanel :=
          s.mobileNavPanel.map (fun _ => { active := navOpen, ariaHidden := !navOpen })
        bodyNoScroll := navOpen }
    if navOpen then
      match s1.header with
      | none => .error s1
      | some h => .ok { s1 with header := some { h with hidden := false } }
    else
      .ok s1

/-- `closeMobileNav` (script.js lines 94-98): no-op when already closed,
otherwise delegates to `toggleMobileNav`. -/
def closeMobileNav (s : PageState) : Except PageState PageState :=
  if s.isNavOpen then toggleMobileNav s else .ok s

/-- Two consecutive invocations of `toggleMobileNav`, propagating a throw. -/
def toggleTwice (s : PageState) : Except PageState PageState :=
  match toggleMobileNav s with
  | .ok s1 => toggleMobileNav s1
  | .error e => .error e

/-! ## Theme controller and preference store (script.js lines 22, 104-131)

`localStorage` is modelled as an `Option String` slot (the stored value, or
`none` when unset).  The JavaScript `||` operator treats both `null` and the
empty string as falsy. -/

/-- JavaScript `a || d` on an optional string: the stored string when
present and non-empty (both `null` and `""` are falsy), else `d`. -/
def jsOr (a : Option String) (d : String) : String :=
  match a with
  | none => d
  | some s => if s = "" then d else s

/-- `let currentTheme = localStorage.getItem('theme') || 'light'`
(script.js line 22): the startup read of the Preference Store. -/
def initCurrentTheme (stored : Option String) : String :=
  jsOr stored "light"

/-- `classList.add`: appends the class only when not already present. -/
def classListAdd (cs : List String) (c : String) : List String :=
  if c ∈ cs then cs else cs ++ [c]

/-- `classList.remove`: drops every occurrence of the class. -/
def classListRemove (cs : List String) (c : String) : List String :=
  cs.filter (fun x => x ≠ c)

/-- The `#theme-toggle` button: `innerHTML` icon and `aria-label`. -/
structure ThemeToggleEl where
  innerHTML : String
  ariaLabel : String
deriving DecidableEq

/-- The state touched by the theme controller: the body's class list, the
persistent storage slot, the module-scoped `currentTheme`, and the optional
toggle button. -/
structure ThemePageState where
  bodyClasses : List String
  storedTheme : Option String
  currentTheme : String
  themeToggle : Option ThemeToggleEl
deriving DecidableEq

/-- `updateThemeToggleIcon` (script.js lines 116-123): null-guarded; sets the
sun icon when the current theme is dark, the moon icon otherwise, and an
`aria-label` naming the opposite theme. -/
def updateThemeToggleIcon (s : ThemePageState) : ThemePageState :=
  match s.themeToggle with
  | none => s
  | some _ =>
    { s with
      themeToggle := some
        { innerHTML :=
            if s.currentTheme = "dark" then "<i class=\"fas fa-sun\"></i>"
            else "<i class=\"fas fa-moon\"></i>"
          ariaLabel :=
            "Switch to " ++ (if s.currentTheme = "dark" then "light" else "dark")
              ++ " mode" } }

/-- The first two statements of `applyTheme` (script.js lines 105-106):
`classList.remove('light-mode', 'dark-mode')` then add of the new theme
class. -/
def applyThemeClasses (theme : String) (s : ThemePageState) : ThemePageState :=
  { s with
    bodyClasses :=
      classListAdd (classListRemove (classListRemove s.bodyClasses "light-mode")
        "dark-mode") (theme ++ "-mode") }

/-- `applyTheme` (script.js lines 104-111): updates the body classes, then
calls `localStorage.setItem` with NO try/catch — when the storage write
throws (`storageFails`), the exception propagates out of `applyTheme`
(modelled as `.error`, carrying the state at the throw: classes already
updated, `currentTheme` and the icon not).  On success, stores the theme,
updates the module variable and the toggle icon. -/
def applyTheme (storageFails : Bool) (theme : String) (s : ThemePageState) :
    Except ThemePageState ThemePageState :=
  let s1 := applyThemeClasses theme s
  if storageFails then .error s1
  else
    .ok (updateThemeToggleIcon
      { s1 with storedTheme := some theme, currentTheme := theme })

/-! ## Scroll progress indicator (script.js lines 136-143) -/

/-- The percentage computed by `updateScrollProgress` (script.js line 141):
`scrollableHeight > 0 ? (scrollY / scrollableHeight) * 100 : 0`, with
`scrollableHeight = scrollHeight - innerHeight`.  There is no clamping in
the source. -/
def scrolledPercentage (scrollY scrollHeight innerHeight : ℚ) : ℚ :=
  let scrollableHeight := scrollHeight - innerHeight
  if scrollableHeight > 0 then scrollY / scrollableHeight * 100 else 0

/-- `updateScrollProgress` (script.js lines 136-143): early `return` when the
`#scroll-progress-indicator` element is absent (`none`), otherwise writes
the computed percentage as the indicator's width. -/
def updateScrollProgress (indicatorWidth : Option ℚ)
    (scrollY scrollHeight innerHeight : ℚ) : Option ℚ :=
  match indicatorWidth with
  | none => none
  | some _ => some (scrolledPercentage scrollY scrollHeight innerHeight)

/-! ## News panel loader (script.js lines 158-221)

`displayFinanceNews` issues exactly one `fetch` per call (it is called once,
at page load, line 350; there is no retry logic), so the model consumes a
single `FetchResult`.  The grid's `innerHTML` over time is modelled as the
list of successive contents.  Crucially, line 211 calls `staggerAnimation`,
which in the source is a `const` declared INSIDE `initScrollAnimations`
(line 250) and therefore not in scope at line 211: in the success-with-items
branch the call raises a `ReferenceError` after the cards have been
appended, and the surrounding `catch` (lines 217-220) then replaces the grid
content with the error message. -/

/-- One parsed news item as the code reads it: every field access has a
fallback, so each is optional. -/
structure NewsItem where
  title : Option String
  link : Option String
  imageUrl : Option String
  excerpt : Option String
  description : Option String
deriving DecidableEq

/-- One rendered card (script.js lines 183-207): title, link, image URL and
excerpt after fallbacks, the link opening in a new context
(`target="_blank"`). -/
structure NewsCard where
  title : String
  link : String
  imageUrl : String
  excerpt : String
  newTab : Bool
deriving DecidableEq

/-- Card construction for one item (script.js lines 187-206), with the
fallback chains `item.title || 'No Title Available'`, `item.link || '#'`,
the placeholder image URL, and
`item.excerpt || item.description || 'No description available.'`. -/
def renderCard (item : NewsItem) : NewsCard :=
  { title := jsOr item.title "No Title Available"
    link := jsOr item.link "#"
    imageUrl :=
      jsOr item.imageUrl "https://via.placeholder.com/400x250/cccccc/999999?text=News"
    excerpt := jsOr item.excerpt (jsOr item.description "No description available.")
    newTab := true }

/-- The successive contents of `#news-grid`'s `innerHTML`: the loading
placeholder, a list of rendered cards, the static "No news items found."
message, or the static inline error message
(`<p class="error-news">Could not load news at this time. ...</p>`). -/
inductive GridContent where
  | loading
  | cards (cs : List NewsCard)
  | noNews
  | errorMsg
deriving DecidableEq

/-- Outcome of `response.json()`: a parse throw, or a parsed body whose
`items` field is `none` when missing/null (the `newsData && newsData.items`
guard then fails) and `some items` otherwise. -/
inductive BodyParse where
  | parseError
  | parsed (items : Option (List NewsItem))
deriving DecidableEq

/-- Outcome of the single `fetch`: a network rejection, or a response with
its HTTP status and body. -/
inductive FetchResult where
  | networkError
  | response (status : Nat) (body : BodyParse)
deriving DecidableEq

/-- `response.ok`: status in the 2xx range. -/
def responseOk (status : Nat) : Bool :=
  200 ≤ status && status ≤ 299

/-- A failing fetch in the sense of the spec: network error, non-2xx status
(the code throws on `!response.ok`, line 171), or a JSON parse throw. -/
def isFetchFailure (f : FetchResult) : Bool :=
  match f with
  | .networkError => true
  | .response status body =>
    !responseOk status ||
      (match body with
       | .parseError => true
       | .parsed _ => false)

/-- `displayFinanceNews` (script.js lines 158-221) as the trace of grid
contents it writes: `[]` when `#news-grid` is absent (early return);
otherwise the loading placeholder first, then
  - on any failure (network, `!response.ok` throw, JSON parse throw): the
    caught exception writes the static error message;
  - on a parsed body without items or with an empty `items` array: the
    "no news" message;
  - on a non-empty `items` array: the first 4 items rendered as cards
    (lines 180-208), after which the out-of-scope `staggerAnimation`
    reference at line 211 raises a `ReferenceError`, caught at line 217,
    which overwrites the grid with the static error message. -/
def displayFinanceNews (gridPresent : Bool) (f : FetchResult) : List GridContent :=
  if gridPresent = false then []
  else
    GridContent.loading ::
      (match f with
       | .networkError => [.errorMsg]
       | .response status body =>
         if responseOk status = false then [.errorMsg]
         else
           match body with
           | .parseError => [.errorMsg]
           | .parsed none => [.noNews]
           | .parsed (some items) =>
             if items.length > 0 then
               [.cards ((items.take 4).map renderCard), .errorMsg]
             else [.noNews])

/-! ## Reveal animation engine initialization (script.js lines 357-367)

The deferred setup callback runs `initScrollAnimations()` only when the
reduced-motion preference is off; when it is on, every element matched by
`'.animate-on-scroll, .post-card, .news-item, .about-content-wrapper > div'`
is force-set via `gsap.set(el, { opacity: 1, y: 0, x: 0, scale: 1 })`. -/

/-- One animatable element: which of the four selector alternatives it
matches, and its current visual properties. -/
structure AnimElem where
  animateOnScroll : Bool
  postCard : Bool
  newsItem : Bool
  aboutWrapperDirectDivChild : Bool
  opacity : ℚ
  x : ℚ
  y : ℚ
  scale : ℚ
deriving DecidableEq

/-- Membership in the selector list
`'.animate-on-scroll, .post-card, .news-item, .about-content-wrapper > div'`. -/
def snapSelectorMatches (e : AnimElem) : Bool :=
  e.animateOnScroll || e.postCard || e.newsItem || e.aboutWrapperDirectDivChild

/-- `gsap.set(el, { opacity: 1, y: 0, x: 0, scale: 1 })` (script.js
line 363): the final visible resting state. -/
def gsapSetFinal (e : AnimElem) : AnimElem :=
  { e with opacity := 1, x := 0, y := 0, scale := 1 }

/-- Which branch the deferred setup callback took. -/
inductive SetupAction where
  | engineInitialized
  | elementsSnapped
deriving DecidableEq

/-- `initScrollAnimations` (script.js lines 224-312) registers GSAP tweens
and ScrollTriggers; the animations it schedules are driven by later
viewport-intersection events, so on this instantaneous state snapshot the
registration itself changes no element property. -/
def initScrollAnimations (els : List AnimElem) : List AnimElem :=
  els

/-- The deferred setup callback (script.js lines 357-367): when the
reduced-motion preference is set, skips the engine and snaps every matched
element to its resting state — without consulting the scroll position
`scrollY` at all; otherwise initializes the animation engine. -/
def setupAnimations (prefersReducedMotion : Bool) (_scrollY : Int)
    (els : List AnimElem) : SetupAction × List AnimElem :=
  if prefersReducedMotion then
    (.elementsSnapped,
      els.map (fun e => if snapSelectorMatches e then gsapSetFinal e else e))
  else
    (.engineInitialized, initScrollAnimations els)

/-! ## Concrete states used to instantiate the theorems -/

/-- A header of height 64 with neither class set. -/
def hdr64 : HeaderEl := ⟨false, false, 64⟩

/-- Baseline page state: header present, trigger absent, panel present,
drawer closed. -/
def stNoTrigger : PageState :=
  { header := some hdr64, navToggle := none, mobileNavPanel := some ⟨false, true⟩,
    bodyNoScroll := false, isNavOpen := false, lastScrollY := 0 }

/-- Page state with trigger present but header absent, drawer closed. -/
def stNoHeader : PageState :=
  { header := none, navToggle := some ⟨false, false⟩, mobileNavPanel := none,
    bodyNoScroll := false, isNavOpen := false, lastScrollY := 0 }

/-- Page state with trigger and header present, panel absent, drawer closed. -/
def stNoPanel : PageState :=
  { header := some hdr64, navToggle := some ⟨false, false⟩, mobileNavPanel := none,
    bodyNoScroll := false, isNavOpen := false, lastScrollY := 0 }

/-- Consistent closed-drawer state with all three elements present and the
header currently carrying the `scrolled` class. -/
def stClosed : PageState :=
  { header := some ⟨true, true, 64⟩, navToggle := some ⟨false, false⟩,
    mobileNavPanel := some ⟨false, true⟩, bodyNoScroll := false,
    isNavOpen := false, lastScrollY := 5 }

/-- Consistent open-drawer state, header currently hidden-class-free is NOT
assumed: its `hidden` class is set, to exhibit the frame condition. -/
def stOpen : PageState :=
  { header := some ⟨true, true, 64⟩, navToggle := some ⟨true, true⟩,
    mobileNavPanel := some ⟨true, false⟩, bodyNoScroll := true,
    isNavOpen := true, lastScrollY := 9 }

/-- A theme state with one theme class on the body and no toggle button. -/
def themeSt : ThemePageState :=
  { bodyClasses := ["light-mode"], storedTheme := some "light",
    currentTheme := "light", themeToggle := none }

/-- A news item carrying only `title` and `link`, as in the spec's
six-item scenario. -/
def itemAX : NewsItem :=
  { title := some "A", link := some "http://x", imageUrl := none,
    excerpt := none, description := none }

/-- The card `renderCard` produces for `itemAX`: fallback image URL and
fallback excerpt. -/
def cardAX : NewsCard :=
  { title := "A", link := "http://x",
    imageUrl := "https://via.placeholder.com/400x250/cccccc/999999?text=News",
    excerpt := "No description available.", newTab := true }

/-- A marked (`animate-on-scroll`) element in a pre-reveal visual state. -/
def elemMarked : AnimElem :=
  { animateOnScroll := true, postCard := false, newsItem := false,
    aboutWrapperDirectDivChild := false, opacity := 0, x := 0, y := 50,
    scale := 98 / 100 }

/-! ## Theorems -/

/-- Claim C3: feeding the scroll coordinator a sample `y` after `lastY`
sets the header's `hidden` class exactly when `y > lastY`, `y` exceeds the
header height, and the drawer is closed; a descending pair always ends
visible, and replaying the same `y` ends visible (strict inequality). -/
theorem headerScroll_hidden_iff :
    (∀ (s : PageState) (h : HeaderEl) (y : Int), s.header = some h →
      (hiddenFlag (handleHeaderScroll s y) = true ↔
        (s.lastScrollY < y ∧ h.offsetHeight < y ∧ s.isNavOpen = false)))
    ∧ (∀ (s : PageState) (h : HeaderEl) (y1 y2 : Int), s.header = some h →
        y1 < y2 →
        hiddenFlag (handleHeaderScroll (handleHeaderScroll s y2) y1) = false)
    ∧ (∀ (s : PageState) (h : HeaderEl) (y : Int), s.header = some h →
        hiddenFlag (handleHeaderScroll (handleHeaderScroll s y) y) = false) := by
  refine ⟨?_, ?_, ?_⟩
  · rintro ⟨hdr, nt, pnl, bns, nav, lsy⟩ h y hs
    simp only at hs
    subst hs
    simp [handleHeaderScroll, hiddenFlag, and_assoc]
  · rintro ⟨hdr, nt, pnl, bns, nav, lsy⟩ h y1 y2 hs h12
    simp only at hs
    subst hs
    simp [handleHeaderScroll, hiddenFlag, not_lt.mpr (le_of_lt h12)]
  · rintro ⟨hdr, nt, pnl, bns, nav, lsy⟩ h y hs
    simp only at hs
    subst hs
    simp [handleHeaderScroll, hiddenFlag]

/-- Witness for C3 at concrete inputs: ascending past the header height
hides, the descending pair 100 then 40 shows, and replaying 100 shows. -/
theorem headerScroll_hidden_iff_witness :
    (hiddenFlag (handleHeaderScroll stClosed 100) = true ↔
      (stClosed.lastScrollY < 100 ∧ hdr64.offsetHeight < 100 ∧
        stClosed.isNavOpen = false))
    ∧ hiddenFlag (handleHeaderScroll (handleHeaderScroll stClosed 100) 40) = false
    ∧ hiddenFlag (handleHeaderScroll (handleHeaderScroll stClosed 100) 100) = false :=
  ⟨by
    have h := headerScroll_hidden_iff.1 stClosed ⟨true, true, 64⟩ 100 rfl
    simpa [hdr64] using h,
   headerScroll_hidden_iff.2.1 stClosed ⟨true, true, 64⟩ 40 100 rfl (by decide),
   headerScroll_hidden_iff.2.2 stClosed ⟨true, true, 64⟩ 100 rfl⟩

/-- Claim C2, counterexample: the code does not clamp.  At scroll offset
300 with total height 250 and viewport 100 (scrollable height 150, an
overscroll sample), the computed width is 200%, so the claimed bound
`ratio ≤ 1` (width ≤ 100%) is false. -/
theorem scrollProgress_clamp_counterexample :
    scrolledPercentage 300 250 100 = 200 ∧
    ¬ scrolledPercentage 300 250 100 ≤ 100 := by
  constructor <;> norm_num [scrolledPercentage]

/-- Claim C2 (amended): the indicator's percentage is
`y / (scrollHeight - viewportHeight) * 100` with NO clamping whenever the
scrollable height is positive (so it can exceed 100% on overscroll), and 0
when the scrollable height is ≤ 0; the endpoints still behave as claimed:
0 at `y = 0` and exactly 100% at `y = scrollHeight - viewportHeight`. -/
theorem scrollProgress_formula :
    ∀ y sh ih : ℚ,
      (sh - ih > 0 → scrolledPercentage y sh ih = y / (sh - ih) * 100)
      ∧ (sh - ih ≤ 0 → scrolledPercentage y sh ih = 0)
      ∧ scrolledPercentage 0 sh ih = 0
      ∧ (sh - ih > 0 → scrolledPercentage (sh - ih) sh ih = 100) := by
  intro y sh ih
  refine ⟨fun hpos => ?_, fun hle => ?_, ?_, fun hpos => ?_⟩
  · simp [scrolledPercentage, hpos]
  · simp [scrolledPercentage, not_lt.mpr hle]
  · by_cases hpos : sh - ih > 0 <;> simp [scrolledPercentage, hpos]
  · simp only [scrolledPercentage, if_pos hpos]
    rw [div_self (ne_of_gt hpos), one_mul]

/-- Witness for the amended C2 at concrete inputs: heights 200/100, the
formula branch, the degenerate branch, and the right endpoint. -/
theorem scrollProgress_formula_witness :
    scrolledPercentage 50 200 100 = 50 / (200 - 100) * 100
    ∧ scrolledPercentage 50 100 100 = 0
    ∧ scrolledPercentage (200 - 100) 200 100 = 100 :=
  ⟨(scrollProgress_formula 50 200 100).1 (by norm_num),
   (scrollProgress_formula 50 100 100).2.1 (by norm_num),
   (scrollProgress_formula (200 - 100) 200 100).2.2.2 (by norm_num)⟩

/-- Claim C7, counterexample: the startup read
`localStorage.getItem('theme') || 'light'` passes any non-empty stored
string through verbatim; with `"purple"` stored it returns `"purple"`,
outside `{light, dark}`. -/
theorem themeGet_enum_counterexample :
    initCurrentTheme (some "purple") = "purple" ∧
    ¬ (initCurrentTheme (some "purple") = "light" ∨
       initCurrentTheme (some "purple") = "dark") := by
  constructor
  · rfl
  · decide

/-- Claim C7 (amended): the Preference Store read returns `"light"` exactly
when the slot is unset or holds the empty string, and otherwise returns the
stored string verbatim — including strings outside `{light, dark}`. -/
theorem themeGet_formula :
    initCurrentTheme none = "light"
    ∧ initCurrentTheme (some "") = "light"
    ∧ ∀ s : String, s ≠ "" → initCurrentTheme (some s) = s := by
  refine ⟨rfl, by decide, fun s hs => ?_⟩
  simp [initCurrentTheme, jsOr, hs]

/-- Witness for the amended C7: the stored value `"dark"` round-trips. -/
theorem themeGet_formula_witness :
    initCurrentTheme (some "dark") = "dark" :=
  themeGet_formula.2.2 "dark" (by decide)

/-- Claim C4, counterexample: `applyTheme` wraps `localStorage.setItem` in
no try/catch, so when the storage write throws, the exception propagates to
the caller (the call does not complete normally), refuting "applying a
theme never propagates an exception". -/
theorem applyTheme_swallow_counterexample :
    exOk (applyTheme true "dark" themeSt) = false := by
  rfl

/-- Claim C4 (amended): when the storage write throws, `applyTheme`
propagates the exception; at the moment of the throw the document's theme
classes have already been updated, but the in-memory `currentTheme`, the
stored slot and the toggle icon are untouched. -/
theorem applyTheme_storageFailure_behavior :
    ∀ (s : ThemePageState) (theme : String),
      applyTheme true theme s = .error (applyThemeClasses theme s)
      ∧ (applyThemeClasses theme s).bodyClasses =
          classListAdd (classListRemove (classListRemove s.bodyClasses
            "light-mode") "dark-mode") (theme ++ "-mode")
      ∧ (applyThemeClasses theme s).currentTheme = s.currentTheme
      ∧ (applyThemeClasses theme s).storedTheme = s.storedTheme
      ∧ (applyThemeClasses theme s).themeToggle = s.themeToggle :=
  fun _ _ => ⟨rfl, rfl, rfl, rfl, rfl⟩

/-- Claim C5, counterexample: with the nav trigger element absent,
`toggleMobileNav` dereferences `navToggle.classList` with no null guard and
throws, refuting "every operation of the corresponding controller is a
silent no-op and never throws". -/
theorem navToggle_missing_counterexample :
    exOk (toggleMobileNav stNoTrigger) = false := by
  rfl

/-- Claim C5 (amended): the scroll handler, the progress updater, the
theme-icon updater and the news loader do silently no-op when their element
is absent, and the drawer panel is null-guarded inside the toggle; but
`toggleMobileNav` itself throws when the trigger element is absent (with
`isNavOpen` already flipped), and throws when opening with the header
absent. -/
theorem missingElement_behavior :
    (∀ (s : PageState) (y : Int), s.header = none → handleHeaderScroll s y = s)
    ∧ (∀ y sh ih : ℚ, updateScrollProgress none y sh ih = none)
    ∧ (∀ s : ThemePageState, s.themeToggle = none → updateThemeToggleIcon s = s)
    ∧ (∀ f : FetchResult, displayFinanceNews false f = [])
    ∧ (∀ s : PageState, s.navToggle = none →
        toggleMobileNav s = .error { s with isNavOpen := !s.isNavOpen })
    ∧ (∀ (s : PageState) (t : NavToggleEl), s.navToggle = some t →
        s.header = none → s.isNavOpen = false →
        exOk (toggleMobileNav s) = false)
    ∧ (∀ (s : PageState) (t : NavToggleEl) (h : HeaderEl),
        s.navToggle = some t → s.header = some h → s.mobileNavPanel = none →
        exOk (toggleMobileNav s) = true) := by
  refine ⟨?_, fun _ _ _ => rfl, ?_, fun _ => rfl, ?_, ?_, ?_⟩
  · rintro ⟨hdr, nt, pnl, bns, nav, lsy⟩ y hs
    simp only at hs
    subst hs
    rfl
  · rintro ⟨bc, stt, ct, tt⟩ hs
    simp only at hs
    subst hs
    rfl
  · rintro ⟨hdr, nt, pnl, bns, nav, lsy⟩ hs
    simp only at hs
    subst hs
    rfl
  · rintro ⟨hdr, nt, pnl, bns, nav, lsy⟩ t ht hs hnav
    simp only at ht hs hnav
    subst ht hs hnav
    rfl
  · rintro ⟨hdr, nt, pnl, bns, nav, lsy⟩ t h ht hs hp
    simp only at ht hs hp
    subst ht hs hp
    cases nav <;> rfl

/-- Witness for the amended C5 at concrete states: header-absent scroll
no-op, trigger-absent throw, header-absent-while-opening throw, and
panel-absent success. -/
theorem missingElement_behavior_witness :
    handleHeaderScroll stNoHeader 10 = stNoHeader
    ∧ updateScrollProgress none 3 7 2 = none
    ∧ updateThemeToggleIcon themeSt = themeSt
    ∧ displayFinanceNews false .networkError = []
    ∧ toggleMobileNav stNoTrigger = .error { stNoTrigger with isNavOpen := true }
    ∧ exOk (toggleMobileNav stNoHeader) = false
    ∧ exOk (toggleMobileNav stNoPanel) = true :=
  ⟨missingElement_behavior.1 stNoHeader 10 rfl,
   missingElement_behavior.2.1 3 7 2,
   missingElement_behavior.2.2.1 themeSt rfl,
   missingElement_behavior.2.2.2.1 .networkError,
   missingElement_behavior.2.2.2.2.1 stNoTrigger rfl,
   missingElement_behavior.2.2.2.2.2.1 stNoHeader ⟨false, false⟩ rfl rfl rfl,
   missingElement_behavior.2.2.2.2.2.2 stNoPanel ⟨false, false⟩ hdr64 rfl rfl rfl⟩

/-- Claim C6: from any state whose trigger/panel/body attributes mirror the
drawer flag (the spec's standing invariant) with trigger and header
present, toggling twice succeeds and restores the drawer flag and every
mirrored attribute; the only field that may differ is the header's `hidden`
class, forced off while passing through the open state. -/
theorem navDrawer_toggle_involutive :
    ∀ (s : PageState) (t : NavToggleEl) (h : HeaderEl),
      s.navToggle = some t → s.header = some h →
      t.active = s.isNavOpen → t.ariaExpanded = s.isNavOpen →
      (∀ p : NavPanelEl, s.mobileNavPanel = some p →
        p.active = s.isNavOpen ∧ p.ariaHidden = !s.isNavOpen) →
      s.bodyNoScroll = s.isNavOpen →
      toggleTwice s = .ok { s with header := some { h with hidden := false } } := by
  rintro ⟨hdr, nt, pnl, bns, nav, lsy⟩ t h ht hh hta hte hp hb
  obtain ⟨ta, te⟩ := t
  simp only at ht hh hta hte hb
  subst ht hh
  cases nav with
  | false =>
    subst hta hte hb
    cases pnl with
    | none => rfl
    | some p =>
      obtain ⟨pa, ph⟩ := p
      obtain ⟨hpa, hph⟩ := hp ⟨pa, ph⟩ rfl
      simp only [Bool.not_false] at hpa hph
      subst hpa hph
      rfl
  | true =>
    subst hta hte hb
    cases pnl with
    | none => rfl
    | some p =>
      obtain ⟨pa, ph⟩ := p
      obtain ⟨hpa, hph⟩ := hp ⟨pa, ph⟩ rfl
      simp only [Bool.not_true] at hpa hph
      subst hpa hph
      rfl

/-- Witness for C6: toggling twice from a consistent closed state with the
header carrying the `hidden` class returns every mirrored attribute to its
original value, clearing only the header's `hidden` class. -/
theorem navDrawer_toggle_involutive_witness :
    toggleTwice stClosed = .ok { stClosed with header := some ⟨true, false, 64⟩ } :=
  navDrawer_toggle_involutive stClosed ⟨false, false⟩ ⟨true, true, 64⟩ rfl rfl rfl rfl
    (fun p hp => by cases hp; exact ⟨rfl, rfl⟩) rfl

/-- Claim C10: closing the drawer (via `closeMobileNav`, hence
`toggleMobileNav` on an open state) updates the trigger, panel and body
mirrors but leaves the `header` field — in particular its `hidden` class —
exactly as it was; the forced removal of `hidden` happens only on the
transition to open. -/
theorem closeNav_headerHidden_frame :
    (∀ (s : PageState) (t : NavToggleEl), s.navToggle = some t →
      s.isNavOpen = true →
      closeMobileNav s = .ok
        { s with
          isNavOpen := false
          navToggle := some ⟨false, false⟩
          mobileNavPanel := s.mobileNavPanel.map (fun _ => ⟨false, true⟩)
          bodyNoScroll := false })
    ∧ (∀ (s : PageState) (t : NavToggleEl) (h : HeaderEl),
        s.navToggle = some t → s.header = some h → s.isNavOpen = false →
        toggleMobileNav s = .ok
          { s with
            isNavOpen := true
            navToggle := some ⟨true, true⟩
            mobileNavPanel := s.mobileNavPanel.map (fun _ => ⟨true, false⟩)
            bodyNoScroll := true
            header := some { h with hidden := false } }) := by
  constructor
  · rintro ⟨hdr, nt, pnl, bns, nav, lsy⟩ t ht hnav
    simp only at ht hnav
    subst ht hnav
    cases pnl <;> rfl
  · rintro ⟨hdr, nt, pnl, bns, nav, lsy⟩ t h ht hh hnav
    simp only at ht hh hnav
    subst ht hh hnav
    cases pnl <;> rfl

/-- Witness for C10: closing from the open state whose header carries the
`hidden` class leaves that class set (it is only recomputed by the next
scroll event). -/
theorem closeNav_headerHidden_frame_witness :
    closeMobileNav stOpen = .ok
      { header := some ⟨true, true, 64⟩, navToggle := some ⟨false, false⟩,
        mobileNavPanel := some ⟨false, true⟩, bodyNoScroll := false,
        isNavOpen := false, lastScrollY := 9 } :=
  closeNav_headerHidden_frame.1 stOpen ⟨true, true⟩ rfl rfl

/-- Claim C1 (code evaluated at the failing input): a 200 response with six
items carrying only `title` and `link` does render exactly the first 4
cards with the fallback image and fallback excerpt — but the grid does NOT
end in the rendered-cards state: the `staggerAnimation` reference at
script.js line 211 is out of scope (it is a `const` local to
`initScrollAnimations`, line 250), the resulting `ReferenceError` is caught
at line 217, and the grid's final content is the static error message. -/
theorem newsLoader_success_overwritten_by_error :
    displayFinanceNews true
        (.response 200 (.parsed (some (List.replicate 6 itemAX)))) =
      [.loading, .cards (List.replicate 4 cardAX), .errorMsg]
    ∧ (displayFinanceNews true
        (.response 200 (.parsed (some (List.replicate 6 itemAX))))).getLast? =
      some .errorMsg := by
  constructor <;> rfl

/-- Claim C8: every failing fetch — network rejection, non-2xx status such
as HTTP 500 (the code throws on `!response.ok`), or a JSON parse throw —
leaves the grid showing exactly the static error message after the loading
placeholder, with zero cards; `displayFinanceNews` consumes its single
fetch outcome, so there is no retry within the page load. -/
theorem newsLoader_failure_shows_error :
    ∀ f : FetchResult, isFetchFailure f = true →
      displayFinanceNews true f = [.loading, .errorMsg] := by
  intro f hf
  cases f with
  | networkError => rfl
  | response status body =>
    simp only [isFetchFailure, Bool.or_eq_true, Bool.not_eq_true'] at hf
    cases body with
    | parseError =>
      by_cases hok : responseOk status = false <;>
        simp [displayFinanceNews, hok, eq_false_of_ne_true]
    | parsed items =>
      rcases hf with hok | h
      · simp [displayFinanceNews, hok]
      · exact absurd h (by simp)

/-- Witness for C8: an HTTP 500 response (even one whose body would have
parsed) yields the loading placeholder then the error message. -/
theorem newsLoader_failure_shows_error_witness :
    displayFinanceNews true (.response 500 (.parsed (some [itemAX]))) =
      [.loading, .errorMsg] :=
  newsLoader_failure_shows_error (.response 500 (.parsed (some [itemAX])))
    (by decide)

/-- Claim C9: with the reduced-motion preference set, the deferred setup
callback skips the animation engine entirely and, for any scroll position,
every element matching the snap selector ends at its final visible resting
state: opacity 1, zero x and y offset, scale 1. -/
theorem reducedMotion_snaps_elements :
    ∀ (scrollY : Int) (els : List AnimElem),
      (setupAnimations true scrollY els).1 = .elementsSnapped
      ∧ ∀ e ∈ (setupAnimations true scrollY els).2,
          snapSelectorMatches e = true →
          e.opacity = 1 ∧ e.x = 0 ∧ e.y = 0 ∧ e.scale = 1 := by
  intro scrollY els
  refine ⟨rfl, ?_⟩
  intro e he hm
  have he' : e ∈ els.map (fun a => if snapSelectorMatches a then gsapSetFinal a else a) :=
    he
  rcases List.mem_map.mp he' with ⟨a, _, hae⟩
  subst hae
  by_cases hsel : snapSelectorMatches a = true
  · rw [if_pos hsel]
    exact ⟨rfl, rfl, rfl, rfl⟩
  · rw [if_neg hsel] at hm
    exact absurd hm hsel

/-- Witness for C9: a marked element starting at opacity 0, y-offset 50 and
scale 0.98 is snapped to the resting state at scroll position 7. -/
theorem reducedMotion_snaps_elements_witness :
    (setupAnimations true 7 [elemMarked]).1 = .elementsSnapped
    ∧ ((gsapSetFinal elemMarked).opacity = 1 ∧ (gsapSetFinal elemMarked).x = 0
        ∧ (gsapSetFinal elemMarked).y = 0 ∧ (gsapSetFinal elemMarked).scale = 1) :=
  ⟨(reducedMotion_snaps_elements 7 [elemMarked]).1,
   (reducedMotion_snaps_elements 7 [elemMarked]).2 (gsapSetFinal elemMarked)
     (by simp [setupAnimations, elemMarked, snapSelectorMatches])
     (by simp [gsapSetFinal, elemMarked, snapSelectorMatches])⟩

end SulavSite
